import Mathlib

/-
Shallow embedding of the cpp-simple-vector repository:
  src/simple-vector/array_ptr.h      (class ArrayPtr)
  src/simple-vector/simple_vector.h  (class SimpleVector)

Machine integers (size_t) are modelled by Nat: all sizes and capacities in
the program are small counts and no arithmetic in the modelled paths can
overflow in a way a claim depends on.

Element type: a generic type with a default value (C++ Type()).  Element
moves are modelled as value copies whose source keeps its value: nothing
in the modelled code ever reads a moved-from live slot, and all claims
about moved-from containers concern only size/capacity, so this choice is
observationally faithful for nothrow-movable element types.  Fallible
element operations (default construction Type(), copy assignment) are
modelled with an explicit budget: the operation consumes one unit per
elementary call and throws when the budget is exhausted, mirroring a
C++ exception thrown at an arbitrary call site.
-/

namespace SimpleVec

/-- Model of the ArrayPtr state (array_ptr.h lines 92-94):
`block` is the owned heap block (`none` = nullptr, `some l` = a block whose
contents are `l`), `cap` is the `capacity_` field. -/
structure AP (α : Type) where
  block : Option (List α)
  cap : Nat
deriving DecidableEq, Repr

/-- ArrayPtr() — default construction: null pointer, capacity 0
(array_ptr.h lines 10, 93-94). -/
def AP.mkDefault {α : Type} : AP α := ⟨none, 0⟩

/-- explicit ArrayPtr(size_t size) (array_ptr.h lines 14-19): if size > 0,
allocates `size` value-initialized elements and records the capacity;
otherwise stays null with capacity 0. -/
def AP.ofSize {α : Type} [Inhabited α] (size : Nat) : AP α :=
  if size > 0 then ⟨some (List.replicate size default), size⟩ else ⟨none, 0⟩

/-- explicit ArrayPtr(Type* raw_ptr) (array_ptr.h lines 23-25): stores the
raw pointer; note the constructor never touches `capacity_`, which keeps
its default value 0. -/
def AP.ofRaw {α : Type} (raw : Option (List α)) : AP α := ⟨raw, 0⟩

/-- ArrayPtr::Delete (array_ptr.h lines 44-47): frees the block and nulls
the pointer; `capacity_` is not reset. -/
def AP.delete {α : Type} (a : AP α) : AP α := ⟨none, a.cap⟩

/-- ArrayPtr::Release (array_ptr.h lines 56-60): returns the raw pointer
and nulls the stored one; `capacity_` is not reset. -/
def AP.release {α : Type} (a : AP α) : Option (List α) × AP α :=
  (a.block, ⟨none, a.cap⟩)

/-- ArrayPtr::swap (array_ptr.h lines 87-90): exchanges both the pointer
and the capacity. -/
def AP.swapOp {α : Type} (a b : AP α) : AP α × AP α := (b, a)

/-- ArrayPtr::operator=(ArrayPtr&&) (array_ptr.h lines 37-42): if the two
objects are distinct it swaps them, otherwise it does nothing.  `self` is
true exactly when `this == &rhs`.  Returns (new destination, new source). -/
def AP.moveAssign {α : Type} (dst src : AP α) (self : Bool) : AP α × AP α :=
  if self then (dst, src) else (src, dst)

/-- ArrayPtr(ArrayPtr&&) (array_ptr.h lines 33-35): default-initializes
`*this` to (nullptr, 0) and move-assigns `other` into it. -/
def AP.moveCtor {α : Type} (src : AP α) : AP α × AP α :=
  AP.moveAssign AP.mkDefault src false

/-- The invariant claimed by the spec for OwningBuffer: the data pointer
is null exactly when the recorded capacity is 0. -/
def AP.Inv {α : Type} (a : AP α) : Prop := a.block = none ↔ a.cap = 0

instance {α : Type} [DecidableEq α] (a : AP α) : Decidable (AP.Inv a) := by
  unfold AP.Inv; infer_instance

/-- Observable state of a SimpleVector (simple_vector.h lines 364-366):
`items` is the contents of the owned buffer (its length is the number of
allocated slots), `size_` and `capacity_` are the two counters. -/
structure VState (α : Type) where
  items : List α
  size_ : Nat
  capacity_ : Nat
deriving DecidableEq, Repr

/-- The live elements of the vector: buffer slots at offsets [0, size). -/
def VState.live {α : Type} (st : VState α) : List α := st.items.take st.size_

/-- The observable state of the container: size, capacity, and the
elements at logical indices [0, size). -/
def obs {α : Type} (st : VState α) : Nat × Nat × List α :=
  (st.size_, st.capacity_, st.live)

/-- Well-formedness of reachable states: size never exceeds capacity and
the buffer holds exactly `capacity_` slots. -/
def WF {α : Type} (st : VState α) : Prop :=
  st.size_ ≤ st.capacity_ ∧ st.items.length = st.capacity_

/-- SimpleVector(const SimpleVector& other) (simple_vector.h lines 64-68):
builds a temporary of other's size, copies other's live elements into it
and swaps it into `*this`; the resulting capacity is other's size. -/
def copyCtor {α : Type} (src : VState α) : VState α :=
  ⟨src.live, src.size_, src.size_⟩

/-- operator=(const SimpleVector&) (simple_vector.h lines 70-82): self
assignment is a no-op; assignment from an empty source is a Clear();
otherwise copy-and-swap.  `self` is true exactly when `&rhs == this`. -/
def copyAssign {α : Type} (dst src : VState α) (self : Bool) : VState α :=
  if self then dst
  else if src.size_ = 0 then { dst with size_ := 0 }
  else copyCtor src

/-- Resize (simple_vector.h lines 158-186).  When `size_ <= new_size` the
code builds `tmp = SimpleVector(new_size)` (a buffer of exactly new_size
default-valued slots), moves the live elements into it, assigns
`size_ = new_size; capacity_ = new_size * 2`, swaps with tmp — which
replaces those counters by tmp's `(new_size, new_size)` — and then
re-generates the tail; the net state is a buffer of new_size slots with
size and capacity both new_size.  When `size_ > new_size` it only sets
`size_ = new_size`. -/
def resize {α : Type} [Inhabited α] (st : VState α) (new_size : Nat) : VState α :=
  if st.size_ ≤ new_size then
    ⟨st.live ++ List.replicate (new_size - st.size_) default, new_size, new_size⟩
  else
    { st with size_ := new_size }

/-- SimpleVector(SimpleVector&&) (simple_vector.h lines 94-97): steals the
buffer (the source ArrayPtr becomes null), copies the counters, then
`other.Clear()` zeroes the source's size (its `capacity_` keeps its old
value).  Returns (constructed vector, moved-from source). -/
def moveCtor {α : Type} (src : VState α) : VState α × VState α :=
  (⟨src.items, src.size_, src.capacity_⟩, ⟨[], 0, src.capacity_⟩)

/-- operator=(SimpleVector&&) (simple_vector.h lines 99-105): when the two
buffer pointers differ, `Resize(rhs.size_)` then element-wise
`std::move(rhs.begin(), rhs.end(), begin())`; otherwise a no-op.  The
source is not modified (its elements are moved-from, its size keeps its
value).  `samePtr` is true exactly when `items_.Get() == rhs.items_.Get()`.
Returns (new destination, new source). -/
def moveAssign {α : Type} [Inhabited α] (dst src : VState α) (samePtr : Bool) :
    VState α × VState α :=
  if samePtr then (dst, src)
  else
    let r := resize dst src.size_
    (⟨src.live ++ r.items.drop src.size_, r.size_, r.capacity_⟩, src)

/-- Insert(ConstIterator pos, const Type&) (simple_vector.h lines 247-277),
with `pos` given as the offset from begin().  If the capacity suffices,
copy_backward shifts the tail [pos, size) one slot right in place and the
value is written at `pos`; otherwise a new buffer of
max(capacity*2, size+1) slots is built with prefix, value, suffix. -/
def insertCopy {α : Type} [Inhabited α] (st : VState α) (pos : Nat) (v : α) : VState α :=
  if st.size_ + 1 ≤ st.capacity_ then
    ⟨st.items.take pos ++ v :: ((st.items.drop pos).take (st.size_ - pos)
       ++ st.items.drop (st.size_ + 1)),
     st.size_ + 1, st.capacity_⟩
  else
    ⟨st.live.take pos ++ v :: (st.live.drop pos
       ++ List.replicate (max (st.capacity_ * 2) (st.size_ + 1) - (st.size_ + 1)) default),
     st.size_ + 1, max (st.capacity_ * 2) (st.size_ + 1)⟩

/-- Insert(ConstIterator pos, Type&&) (simple_vector.h lines 279-312).
If capacity > size, move_backward shifts the tail right in place; if the
capacity is 0 a one-slot buffer holding the value is adopted; otherwise a
buffer of `size * 2` slots is built with prefix, value, suffix. -/
def insertMove {α : Type} [Inhabited α] (st : VState α) (pos : Nat) (v : α) : VState α :=
  if st.size_ < st.capacity_ then
    ⟨st.items.take pos ++ v :: ((st.items.drop pos).take (st.size_ - pos)
       ++ st.items.drop (st.size_ + 1)),
     st.size_ + 1, st.capacity_⟩
  else if st.capacity_ = 0 then
    ⟨[v], 1, 1⟩
  else
    ⟨st.live.take pos ++ v :: (st.live.drop pos
       ++ List.replicate (st.size_ * 2 - (st.size_ + 1)) default),
     st.size_ + 1, st.size_ * 2⟩

/-
Fallible versions.  Each returns `Except (VState α) (VState α × Nat)`:
`.ok (st, b)` is normal completion with remaining budget b, `.error st`
is a C++ exception escaping with the container observed in state st.
Each elementary fallible operation (one Type() default construction, one
element copy assignment) costs one budget unit; element moves and raw
allocation bookkeeping are nothrow.  A copy assignment that throws leaves
its target slot unchanged in the model (the slot is never a live one at
a point where the distinction is observable).
-/

/-- operator=(const SimpleVector&) with failure (simple_vector.h lines
70-82).  The non-empty path runs the copy constructor on a temporary:
building `SimpleVector tmp(rhs.size_)` costs `2 * size` units (size
value-initializations in ArrayPtr plus the std::generate pass of the
sized constructor) and the std::copy costs `size` more; any throw happens
before the final swap, so the error state is the untouched destination. -/
def copyAssignE {α : Type} [Inhabited α] (dst src : VState α) (self : Bool)
    (b : Nat) : Except (VState α) (VState α × Nat) :=
  if self then .ok (dst, b)
  else if src.size_ = 0 then .ok ({ dst with size_ := 0 }, b)
  else if 3 * src.size_ ≤ b then .ok (copyCtor src, b - 3 * src.size_)
  else .error dst

/-- PushBack(const Type&) with failure (simple_vector.h lines 224-238).
Growth path: ReallocateCopy allocates `new_capacity` value-initialized
slots (new_capacity units) and copies the `size` live elements (size
units), then the new element is copy-assigned into slot `size` (1 unit);
all of this happens on the detached buffer, so a throw leaves the vector
untouched.  Non-growth path: one copy assignment into the dead slot at
offset `size`; a throw leaves the observable state untouched. -/
def pushBackE {α : Type} [Inhabited α] (st : VState α) (v : α) (b : Nat) :
    Except (VState α) (VState α × Nat) :=
  if st.capacity_ < st.size_ + 1 then
    if max (st.capacity_ * 2) (st.size_ + 1) + st.size_ + 1 ≤ b then
      .ok (⟨st.live ++ v :: List.replicate
              (max (st.capacity_ * 2) (st.size_ + 1) - (st.size_ + 1)) default,
            st.size_ + 1, max (st.capacity_ * 2) (st.size_ + 1)⟩,
           b - (max (st.capacity_ * 2) (st.size_ + 1) + st.size_ + 1))
    else .error st
  else
    if 1 ≤ b then .ok (⟨st.items.set st.size_ v, st.size_ + 1, st.capacity_⟩, b - 1)
    else .error st

/-- Insert(ConstIterator pos, const Type&) with failure (simple_vector.h
lines 247-277).  In-place path: copy_backward performs `size - pos` copy
assignments from the back (the k-th writes slot size+1-k), then the value
is copy-assigned at `pos`; a throw part-way leaves the partially shifted
buffer.  Reallocating path: allocation (new_capacity units), prefix copy
(pos units), value (1 unit), suffix copy (size - pos units) all touch
only the detached buffer, so a throw leaves the vector untouched. -/
def insertCopyE {α : Type} [Inhabited α] (st : VState α) (pos : Nat) (v : α)
    (b : Nat) : Except (VState α) (VState α × Nat) :=
  if st.size_ + 1 ≤ st.capacity_ then
    if st.size_ - pos + 1 ≤ b then
      .ok (⟨st.items.take pos ++ v :: ((st.items.drop pos).take (st.size_ - pos)
              ++ st.items.drop (st.size_ + 1)),
            st.size_ + 1, st.capacity_⟩,
           b - (st.size_ - pos + 1))
    else if st.size_ - pos ≤ b then
      .error ⟨st.items.take (pos + 1) ++ ((st.items.drop pos).take (st.size_ - pos)
                ++ st.items.drop (st.size_ + 1)),
              st.size_, st.capacity_⟩
    else
      .error ⟨st.items.take (st.size_ - b + 1)
                ++ ((st.items.drop (st.size_ - b)).take b
                  ++ st.items.drop (st.size_ + 1)),
              st.size_, st.capacity_⟩
  else
    if max (st.capacity_ * 2) (st.size_ + 1) + st.size_ + 1 ≤ b then
      .ok (⟨st.live.take pos ++ v :: (st.live.drop pos
              ++ List.replicate
                  (max (st.capacity_ * 2) (st.size_ + 1) - (st.size_ + 1)) default),
            st.size_ + 1, max (st.capacity_ * 2) (st.size_ + 1)⟩,
           b - (max (st.capacity_ * 2) (st.size_ + 1) + st.size_ + 1))
    else .error st

/-- Reserve(size_t) with failure (simple_vector.h lines 337-345).  When
new_capacity > capacity_, `SimpleVector new_vector(new_capacity)` costs
`2 * new_capacity` units; a throw there leaves the vector untouched.  The
element moves, the ArrayPtr swap and the std::exchange on `capacity_` are
nothrow, so only the allocation phase can fail. -/
def reserveE {α : Type} [Inhabited α] (st : VState α) (new_capacity b : Nat) :
    Except (VState α) (VState α × Nat) :=
  if st.capacity_ < new_capacity then
    if 2 * new_capacity ≤ b then
      .ok (⟨st.live ++ List.replicate (new_capacity - st.size_) default,
            st.size_, new_capacity⟩,
           b - 2 * new_capacity)
    else .error st
  else .ok (st, b)

/-- Resize(size_t) with failure (simple_vector.h lines 158-186).  In the
growth branch (`size_ <= new_size`), building tmp costs `2 * new_size`
units, and a throw there leaves the vector untouched; but the
std::generate over the tail runs AFTER the swap that adopts the new
buffer, so its `new_size - size_` Type() calls can throw with the vector
already in the fully resized state (the tail slots already hold default
values from tmp's own construction, so a partial generate changes no
value).  The shrink branch performs no fallible operation. -/
def resizeE {α : Type} [Inhabited α] (st : VState α) (new_size b : Nat) :
    Except (VState α) (VState α × Nat) :=
  if st.size_ ≤ new_size then
    if 2 * new_size ≤ b then
      let mid : VState α :=
        ⟨st.live ++ List.replicate (new_size - st.size_) default, new_size, new_size⟩
      if new_size - st.size_ ≤ b - 2 * new_size then
        .ok (mid, b - 2 * new_size - (new_size - st.size_))
      else .error mid
    else .error st
  else .ok ({ st with size_ := new_size }, b)

end SimpleVec

namespace SimpleVec

instance {α : Type} (st : VState α) : Decidable (WF st) := by
  unfold WF; infer_instance

/-- Helper: taking the first |A| + 1 + |X| elements of A ++ v :: (X ++ Y)
yields A ++ v :: X. -/
lemma take_mid {α : Type} (A X Y : List α) (v : α) :
    (A ++ v :: (X ++ Y)).take (A.length + 1 + X.length) = A ++ v :: X := by
  rw [List.take_append_eq_append_take, List.take_of_length_le (by omega)]
  have h2 : A.length + 1 + X.length - A.length = X.length + 1 := by omega
  rw [h2]
  simp [List.take_cons]

/-- Helper: Resize always sets the size counter to the requested size. -/
lemma resize_size {α : Type} [Inhabited α] (st : VState α) (n : Nat) :
    (resize st n).size_ = n := by
  unfold resize; split <;> rfl

/-- Helper: a well-formed vector's live list has length `size_`. -/
lemma live_length {α : Type} (st : VState α) (h : st.size_ ≤ st.items.length) :
    st.live.length = st.size_ := by
  simp [VState.live]; omega

end SimpleVec

namespace SimpleVec

/-- Claim C10: copy construction produces a vector whose capacity equals
the source's size (not the source's capacity): the copy constructor builds
its temporary as `SimpleVector tmp(other.size_)`, so the adopted buffer
has exactly `other.size_` slots and both counters equal `other.size_`. -/
theorem C10_copyCtor_capacity {α : Type} (src : VState α) :
    (copyCtor src).capacity_ = src.size_ ∧ (copyCtor src).size_ = src.size_ :=
  ⟨rfl, rfl⟩

/-- Claim C9: move-assigning a vector from itself (the guard
`items_.Get() != rhs.items_.Get()` sees equal pointers) is a no-op: the
resulting destination and source both equal the original state. -/
theorem C9_moveAssign_self {α : Type} [Inhabited α] (a : VState α) :
    moveAssign a a true = (a, a) := rfl

/-- Claim C8: non-self copy assignment from an empty source behaves as
Clear(): the size becomes 0 while the buffer and the capacity are exactly
what they were before the assignment. -/
theorem C8_copyAssign_empty {α : Type} (dst src : VState α)
    (h : src.size_ = 0) :
    copyAssign dst src false = { dst with size_ := 0 } := by
  unfold copyAssign
  simp [h]

/-- Witness for C8 at concrete states. -/
theorem C8_witness :
    copyAssign (⟨[3, 4], 2, 2⟩ : VState Int) ⟨[], 0, 5⟩ false = ⟨[3, 4], 0, 2⟩ :=
  C8_copyAssign_empty ⟨[3, 4], 2, 2⟩ ⟨[], 0, 5⟩ rfl

/-- Claim C5, amended: an ArrayPtr move construction transfers the block
and leaves the source empty; an ArrayPtr move assignment between distinct
objects exchanges the two states, so the destination receives the source's
block while the source receives the destination's former block (which is
empty only when the destination was empty). -/
theorem C5_ap_move {α : Type} (src d s : AP α) :
    AP.moveCtor src = (src, AP.mkDefault) ∧
    AP.moveAssign d s false = (s, d) :=
  ⟨rfl, rfl⟩

/-- Counterexample to C5 as stated: move-assigning from a 3-slot buffer
into a 2-slot buffer leaves the source owning the destination's former
2-slot block, not in the empty state. -/
theorem C5_counterexample :
    (AP.moveAssign (⟨some [0, 0], 2⟩ : AP Int) ⟨some [1, 1, 1], 3⟩ false).1
      = ⟨some [1, 1, 1], 3⟩ ∧
    (AP.moveAssign (⟨some [0, 0], 2⟩ : AP Int) ⟨some [1, 1, 1], 3⟩ false).2.block
      ≠ none := by
  exact ⟨rfl, by decide⟩

/-- Claim C6, amended: the invariant `data = null ↔ capacity = 0` holds
after default construction, after construction from a size, and is
preserved by swap, by move assignment and by move construction; it is NOT
re-established by Delete, Release, or construction from a raw pointer. -/
theorem C6_ap_invariant {α : Type} [Inhabited α] (n : Nat) (a b : AP α)
    (self : Bool) (ha : AP.Inv a) (hb : AP.Inv b) :
    AP.Inv (AP.mkDefault : AP α) ∧
    AP.Inv (AP.ofSize n : AP α) ∧
    AP.Inv (AP.swapOp a b).1 ∧ AP.Inv (AP.swapOp a b).2 ∧
    AP.Inv (AP.moveAssign a b self).1 ∧ AP.Inv (AP.moveAssign a b self).2 ∧
    AP.Inv (AP.moveCtor b).1 ∧ AP.Inv (AP.moveCtor b).2 := by
  refine ⟨by simp [AP.Inv, AP.mkDefault], ?_, hb, ha, ?_, ?_, hb, ?_⟩
  · unfold AP.ofSize AP.Inv
    split
    · simp; omega
    · simp
  · unfold AP.moveAssign
    cases self <;> simp [ha, hb]
  · unfold AP.moveAssign
    cases self <;> simp [ha, hb]
  · simp [AP.Inv, AP.mkDefault, AP.moveCtor, AP.moveAssign]

/-- Witness for C6 at concrete states. -/
theorem C6_witness : AP.Inv (AP.ofSize 2 : AP Int) :=
  (C6_ap_invariant 2 (⟨none, 0⟩ : AP Int) ⟨some [5], 1⟩ true
    (by decide) (by decide)).2.1

/-- Counterexample to C6 as stated: Delete and Release null the pointer
without resetting the capacity, and the raw-pointer constructor records
capacity 0 for a non-null block, so the invariant fails after each. -/
theorem C6_counterexample :
    ¬ AP.Inv (AP.delete (AP.ofSize 3 : AP Int)) ∧
    ¬ AP.Inv ((AP.ofSize 3 : AP Int).release).2 ∧
    ¬ AP.Inv (AP.ofRaw (some [7]) : AP Int) := by
  refine ⟨by decide, by decide, by decide⟩

end SimpleVec

namespace SimpleVec

/-- Claim C2, amended: for newSize > size, Resize preserves the elements
at [0, oldSize), default-initializes the elements at [oldSize, newSize),
and sets both size and capacity to newSize (NOT newSize * 2: the
`capacity_ = size_ * 2` assignment is swapped into the discarded
temporary, whose buffer has exactly newSize slots). -/
theorem C2_resize_grow {α : Type} [Inhabited α] (st : VState α) (n : Nat)
    (hn : st.size_ < n) (hwf : st.size_ ≤ st.items.length) :
    (resize st n).size_ = n ∧
    (resize st n).capacity_ = n ∧
    (resize st n).items.take st.size_ = st.live ∧
    (resize st n).items.drop st.size_ = List.replicate (n - st.size_) default := by
  unfold resize
  rw [if_pos (Nat.le_of_lt hn)]
  have hl : st.live.length = st.size_ := live_length st hwf
  exact ⟨rfl, rfl, List.take_left' hl, List.drop_left' hl⟩

/-- Witness for C2 at concrete states. -/
theorem C2_witness :
    (resize (⟨[5, 7], 2, 2⟩ : VState Int) 3).capacity_ = 3 :=
  (C2_resize_grow ⟨[5, 7], 2, 2⟩ 3 (by decide) (by decide)).2.1

/-- Counterexample to C2 as stated: growing an empty vector to size 1
yields capacity 1, not 1 * 2. -/
theorem C2_counterexample :
    (resize (⟨[], 0, 0⟩ : VState Int) 1).capacity_ ≠ 1 * 2 := by
  decide

/-- Claim C3, amended: Resize(n) shrinks in place only for n strictly
less than size (size becomes n; buffer and capacity untouched).  For
n = size the code takes the growth branch: the live elements and the size
are preserved but the buffer is replaced by a fresh one of exactly n
slots and the capacity becomes n. -/
theorem C3_resize_shrink {α : Type} [Inhabited α] (st : VState α) (n : Nat) :
    (n < st.size_ → resize st n = { st with size_ := n }) ∧
    (n = st.size_ → resize st n = ⟨st.live, n, n⟩) := by
  constructor
  · intro hn
    unfold resize
    rw [if_neg (by omega)]
  · intro hn
    unfold resize
    rw [if_pos (by omega), hn]
    simp

/-- Witness for C3 at concrete states. -/
theorem C3_witness :
    resize (⟨[5, 7], 2, 2⟩ : VState Int) 1 = ⟨[5, 7], 1, 2⟩ :=
  (C3_resize_shrink ⟨[5, 7], 2, 2⟩ 1).1 (by decide)

/-- Counterexample to C3 as stated: for n = size = 1 on a vector of
capacity 2, Resize(1) reallocates and the capacity drops to 1. -/
theorem C3_counterexample :
    (resize (⟨[5, 9], 1, 2⟩ : VState Int) 1).capacity_
      ≠ (⟨[5, 9], 1, 2⟩ : VState Int).capacity_ := by
  decide

/-- Claim C4, amended: after move CONSTRUCTION the destination holds the
source's original elements and size and the source's size is 0.  Move
ASSIGNMENT (between distinct buffers) also leaves the destination with
the source's original elements and size, but the source is not modified:
its size keeps its original value instead of becoming 0. -/
theorem C4_move {α : Type} [Inhabited α] (dst src : VState α)
    (hsrc : src.size_ ≤ src.items.length) :
    (moveCtor src).1.size_ = src.size_ ∧
    (moveCtor src).1.live = src.live ∧
    (moveCtor src).2.size_ = 0 ∧
    (moveAssign dst src false).1.size_ = src.size_ ∧
    (moveAssign dst src false).1.live = src.live ∧
    (moveAssign dst src false).2 = src := by
  refine ⟨rfl, rfl, rfl, ?_, ?_, rfl⟩
  · show (resize dst src.size_).size_ = src.size_
    exact resize_size dst src.size_
  · show (VState.live
      ⟨src.live ++ (resize dst src.size_).items.drop src.size_,
        (resize dst src.size_).size_, (resize dst src.size_).capacity_⟩) = src.live
    unfold VState.live
    rw [resize_size]
    exact List.take_left' (live_length src hsrc)

/-- Witness for C4 at concrete states. -/
theorem C4_witness :
    (moveAssign (⟨[], 0, 0⟩ : VState Int) ⟨[7], 1, 1⟩ false).1.live = [7] :=
  (C4_move (⟨[], 0, 0⟩ : VState Int) ⟨[7], 1, 1⟩ (by decide)).2.2.2.2.1

/-- Counterexample to C4 as stated: after b = move(a) by move assignment
(a = ⟨[7],1,1⟩, b initially empty, distinct buffers), the source's size
is still 1, not 0. -/
theorem C4_counterexample :
    (moveAssign (⟨[], 0, 0⟩ : VState Int) ⟨[7], 1, 1⟩ false).2.size_ ≠ 0 := by
  decide

end SimpleVec

namespace SimpleVec

/-- Claim C7: for any position pos in [0, size], both Insert variants
leave the elements before pos unchanged, place the new value at pos,
shift the elements formerly at [pos, size) to [pos+1, size+1) in order,
and increase the size by exactly 1. -/
theorem C7_insert {α : Type} [Inhabited α] (st : VState α) (pos : Nat) (v : α)
    (hpos : pos ≤ st.size_) (hwf : WF st) :
    (insertCopy st pos v).size_ = st.size_ + 1 ∧
    (insertCopy st pos v).live = st.live.take pos ++ v :: st.live.drop pos ∧
    (insertMove st pos v).size_ = st.size_ + 1 ∧
    (insertMove st pos v).live = st.live.take pos ++ v :: st.live.drop pos := by
  obtain ⟨hsc, hlen⟩ := hwf
  have hsl : st.size_ ≤ st.items.length := by omega
  have hlive : st.live.length = st.size_ := live_length st hsl
  have hinpl :
      (st.items.take pos ++ v :: ((st.items.drop pos).take (st.size_ - pos)
          ++ st.items.drop (st.size_ + 1))).take (st.size_ + 1)
        = st.live.take pos ++ v :: st.live.drop pos := by
    have h1 : (st.items.take pos).length = pos := by
      rw [List.length_take]; omega
    have h2 : ((st.items.drop pos).take (st.size_ - pos)).length = st.size_ - pos := by
      rw [List.length_take, List.length_drop]; omega
    have h3 : st.size_ + 1 = (st.items.take pos).length + 1
        + ((st.items.drop pos).take (st.size_ - pos)).length := by omega
    rw [h3, take_mid]
    have h4 : st.live.take pos = st.items.take pos := by
      unfold VState.live
      rw [List.take_take]; congr 1; omega
    have h5 : st.live.drop pos
        = (st.items.drop pos).take (st.size_ - pos) :=
      List.drop_take st.size_ pos st.items
    rw [h4, h5]
  have hrel : ∀ d : List α,
      (st.live.take pos ++ v :: (st.live.drop pos ++ d)).take (st.size_ + 1)
        = st.live.take pos ++ v :: st.live.drop pos := by
    intro d
    have h1 : (st.live.take pos).length = pos := by
      rw [List.length_take]; omega
    have h2 : (st.live.drop pos).length = st.size_ - pos := by
      rw [List.length_drop]; omega
    have h3 : st.size_ + 1 = (st.live.take pos).length + 1
        + (st.live.drop pos).length := by omega
    rw [h3, take_mid]
  refine ⟨?_, ?_, ?_, ?_⟩
  · unfold insertCopy; split <;> rfl
  · unfold insertCopy
    split
    · exact hinpl
    · exact hrel _
  · unfold insertMove; split
    · rfl
    · split
      · have h0 : st.size_ = 0 := by omega
        rw [h0]
      · rfl
  · unfold insertMove
    split
    · exact hinpl
    · split
      · have h0 : st.size_ = 0 := by omega
        have hp0 : pos = 0 := by omega
        have hl0 : st.live = [] := by
          unfold VState.live; rw [h0]; rfl
        subst hp0
        rw [hl0]
        rfl
      · exact hrel _

/-- Witness for C7: Insert(begin()+1, 9) on {1,2,3} yields live elements
{1,9,2,3} for the by-copy variant. -/
theorem C7_witness :
    (insertCopy (⟨[1, 2, 3], 3, 3⟩ : VState Int) 1 9).live = [1, 9, 2, 3] := by
  have h := (C7_insert (⟨[1, 2, 3], 3, 3⟩ : VState Int) 1 9
    (by decide) (by decide)).2.1
  exact h

/-- Claim C1, amended: failures leave the observable state (size,
capacity, live elements) unchanged for copy assignment, PushBack,
reallocating Insert, and Reserve; for Resize growth, a failure before the
new buffer is adopted leaves the state unchanged, but a Type() failure in
the tail-generating pass that runs after the swap leaves the container in
the fully resized state. -/
theorem C1_strong_guarantee {α : Type} [Inhabited α]
    (dst src st : VState α) (v : α) (pos n m : Nat)
    (b1 b2 b3 b4 b5 : Nat) (self : Bool) (e1 e2 e3 e4 e5 : VState α) :
    (copyAssignE dst src self b1 = .error e1 → obs e1 = obs dst) ∧
    (pushBackE st v b2 = .error e2 → obs e2 = obs st) ∧
    (st.capacity_ < st.size_ + 1 →
      insertCopyE st pos v b3 = .error e3 → obs e3 = obs st) ∧
    (reserveE st m b4 = .error e4 → obs e4 = obs st) ∧
    (resizeE st n b5 = .error e5 →
      obs e5 = obs st ∨ obs e5 = obs (resize st n)) := by
  refine ⟨?_, ?_, ?_, ?_, ?_⟩
  · unfold copyAssignE
    split
    · intro h; exact absurd h (by simp)
    · split
      · intro h; exact absurd h (by simp)
      · split
        · intro h; exact absurd h (by simp)
        · intro h
          cases h
          rfl
  · unfold pushBackE
    split
    · split
      · intro h; exact absurd h (by simp)
      · intro h; cases h; rfl
    · split
      · intro h; exact absurd h (by simp)
      · intro h; cases h; rfl
  · intro hcap
    unfold insertCopyE
    rw [if_neg (by omega)]
    split
    · intro h; exact absurd h (by simp)
    · intro h; cases h; rfl
  · unfold reserveE
    split
    · split
      · intro h; exact absurd h (by simp)
      · intro h; cases h; rfl
    · intro h; exact absurd h (by simp)
  · unfold resizeE
    split
    · rename_i hle
      split
      · split
        · intro h; exact absurd h (by simp)
        · intro h
          cases h
          right
          unfold resize
          rw [if_pos hle]
      · intro h; cases h; exact Or.inl rfl
    · intro h; exact absurd h (by simp)

/-- Witness for C1: each of the five operations applied at a concrete
state and budget that makes it fail. -/
theorem C1_witness :
    (obs (⟨[], 0, 0⟩ : VState Int) = obs (⟨[], 0, 0⟩ : VState Int)) ∧
    (obs (⟨[], 0, 0⟩ : VState Int) = obs (⟨[], 0, 0⟩ : VState Int)) ∧
    (obs (⟨[], 0, 0⟩ : VState Int) = obs (⟨[], 0, 0⟩ : VState Int)) ∧
    (obs (⟨[], 0, 0⟩ : VState Int) = obs (⟨[], 0, 0⟩ : VState Int)) ∧
    (obs (⟨[0], 1, 1⟩ : VState Int) = obs (⟨[], 0, 0⟩ : VState Int) ∨
     obs (⟨[0], 1, 1⟩ : VState Int) = obs (resize (⟨[], 0, 0⟩ : VState Int) 1)) := by
  have h := C1_strong_guarantee (⟨[], 0, 0⟩ : VState Int) ⟨[7], 1, 1⟩
    ⟨[], 0, 0⟩ 7 0 1 1 0 0 0 0 2 false
    ⟨[], 0, 0⟩ ⟨[], 0, 0⟩ ⟨[], 0, 0⟩ ⟨[], 0, 0⟩ ⟨[0], 1, 1⟩
  exact ⟨h.1 rfl, h.2.1 rfl, h.2.2.1 (by decide) rfl, h.2.2.2.1 rfl,
    h.2.2.2.2 rfl⟩

/-- Counterexample to C1 as stated: Resize(1) on an empty vector with an
element-operation budget of 2 fails (the tail Type() call after the swap
throws) and leaves the container with size 1 and capacity 1 — its
observable state is not the original one. -/
theorem C1_counterexample :
    resizeE (⟨[], 0, 0⟩ : VState Int) 1 2 = .error ⟨[0], 1, 1⟩ ∧
    obs (⟨[0], 1, 1⟩ : VState Int) ≠ obs (⟨[], 0, 0⟩ : VState Int) :=
  ⟨rfl, by decide⟩

end SimpleVec
